import Mathlib

/-!
Verification of the CoreWeave reference-architecture benchmarking library.

This file gives a shallow embedding of the core logic of
`src/arena/notebooks/lib/k8s.py` (the manifest-apply helper),
`src/arena/notebooks/lib/storage/object_storage.py` (the credential manager)
and `src/arena/notebooks/lib/storage/warp.py` (the Warp benchmark
orchestrator), together with theorems settling the behavioural claims about
those components.

Modelling conventions:
* The Kubernetes cluster is abstracted to the data the apply logic observes:
  which `(kind, namespace, name)` keys currently exist (`Cluster.present`) and
  which keys produce a non-404 `ApiException` when read (`Cluster.failing`).
  Resource bodies are not tracked - the apply logic inspects only kind and
  metadata.name, and create/patch calls in the source only forward the body to
  the external API.  Create and patch calls of the external API are modelled
  as succeeding, mirroring the scenarios the claims quantify over.
* Python exceptions become `Except`; a raised exception carries the
  information the corresponding Python exception object carries.
* `datetime` values become `Int` seconds; `timedelta(minutes=5)` is `300`.
* Python truthiness of optional strings (`not x` for `str | None`) is
  `strFalsy`.
-/

/-- Python truthiness test `not x` for an optional string: true when the value
is `None` or the empty string. -/
def strFalsy : Option String → Bool
  | none => true
  | some s => decide (s = "")

/-! ## Kubernetes manifest apply (`lib/k8s.py`) -/

/-- Identity of a cluster resource as used by the apply logic of `K8s`:
the resource kind, target namespace and `metadata.name`. -/
structure ResourceKey where
  kind : String
  ns : String
  name : String
deriving DecidableEq, Repr

/-- Abstraction of the cluster state observed through the read/create/patch
API calls: `present` lists the keys whose read succeeds, `failing` lists the
keys whose read raises an `ApiException` with a status other than 404.  Any
other key reads as 404 (not found). -/
structure Cluster where
  present : List ResourceKey
  failing : List ResourceKey
deriving DecidableEq, Repr

/-- Outcome of a `read_namespaced_*` call. -/
inductive ReadResult where
  | found
  | notFound
  | apiError
deriving DecidableEq, Repr

/-- Reading a resource: a non-404 `ApiException` for keys in `failing`,
success for keys in `present`, a 404 otherwise. -/
def readResource (c : Cluster) (k : ResourceKey) : ReadResult :=
  if k ∈ c.failing then .apiError
  else if k ∈ c.present then .found
  else .notFound

/-- The `results` dictionary threaded through `K8s.apply_yaml`:
`{"created": [], "updated": [], "unchanged": []}` with entries appended in
encounter order. -/
structure ApplyResults where
  created : List String
  updated : List String
  unchanged : List String
deriving DecidableEq, Repr

/-- `K8s._apply_resource` (k8s.py lines 348-374): try to read the resource;
on success patch it and record under `updated`; on a 404 create it and record
under `created`; re-raise any other `ApiException` (modelled as `.error`
carrying the resource key of the failed read). -/
def applyResource (c : Cluster) (name ns kind : String) (r : ApplyResults) :
    Except ResourceKey (ApplyResults × Cluster) :=
  match readResource c ⟨kind, ns, name⟩ with
  | .found => .ok ({ r with updated := r.updated ++ [kind ++ "/" ++ name] }, c)
  | .notFound =>
      .ok ({ r with created := r.created ++ [kind ++ "/" ++ name] },
           { c with present := c.present ++ [⟨kind, ns, name⟩] })
  | .apiError => .error ⟨kind, ns, name⟩

/-- The resource kinds `K8s._create_or_update_resource` dispatches on. -/
def supportedKinds : List String :=
  ["ServiceAccount", "ConfigMap", "Service", "StatefulSet", "Job"]

/-- `K8s._create_or_update_resource` (k8s.py lines 271-346): dispatch on the
resource kind.  The four patchable kinds go through `_apply_resource`; a Job
is never patched - if its read succeeds it is recorded under `unchanged` with
the note `(jobs cannot be updated)`, on a 404 it is created, and any other
read error is re-raised; every other kind is recorded under `unchanged` with
the note `(unsupported resource type)`. -/
def createOrUpdateResource (kind name ns : String) (c : Cluster) (r : ApplyResults) :
    Except ResourceKey (ApplyResults × Cluster) :=
  if kind = "ServiceAccount" then applyResource c name ns kind r
  else if kind = "ConfigMap" then applyResource c name ns kind r
  else if kind = "Service" then applyResource c name ns kind r
  else if kind = "StatefulSet" then applyResource c name ns kind r
  else if kind = "Job" then
    match readResource c ⟨kind, ns, name⟩ with
    | .found =>
        .ok ({ r with unchanged := r.unchanged ++ [kind ++ "/" ++ name ++ " (jobs cannot be updated)"] }, c)
    | .notFound =>
        .ok ({ r with created := r.created ++ [kind ++ "/" ++ name] },
             { c with present := c.present ++ [⟨kind, ns, name⟩] })
    | .apiError => .error ⟨kind, ns, name⟩
  else
    .ok ({ r with unchanged := r.unchanged ++ [kind ++ "/" ++ name ++ " (unsupported resource type)"] }, c)

/-- A parsed YAML document as `K8s.apply_yaml` sees it: `doc.get("kind")` and
`doc.get("metadata", {}).get("name")`. -/
structure Doc where
  kind : Option String
  name : Option String
deriving DecidableEq, Repr

/-- The document loop of `K8s.apply_yaml` (k8s.py lines 391-412): skip empty
documents and documents with a falsy kind or name, otherwise dispatch to
`_create_or_update_resource`; a raised `ApiException` aborts the loop and
propagates (as `KubernetesError`), carrying the failing resource; the
`.error` payload also records the cluster state reached when the apply
stopped. -/
def applyDocs : List (Option Doc) → String → Cluster → ApplyResults →
    Except (ResourceKey × Cluster) (ApplyResults × Cluster)
  | [], _, c, r => .ok (r, c)
  | d? :: rest, ns, c, r =>
    match d? with
    | none => applyDocs rest ns c r
    | some d =>
      if strFalsy d.kind || strFalsy d.name then applyDocs rest ns c r
      else
        match createOrUpdateResource (d.kind.getD "") (d.name.getD "") ns c r with
        | .ok (r', c') => applyDocs rest ns c' r'
        | .error k => .error (k, c)

/-- `K8s.apply_yaml` on an already-parsed document list: run the document
loop starting from empty result buckets. -/
def applyYaml (docs : List (Option Doc)) (ns : String) (c : Cluster) :
    Except (ResourceKey × Cluster) (ApplyResults × Cluster) :=
  applyDocs docs ns c ⟨[], [], []⟩

/-- A `(kind, name)` descriptor rendered as the well-formed document
`{kind: ..., metadata: {name: ...}}`. -/
def docsOf (ds : List (String × String)) : List (Option Doc) :=
  ds.map fun p => some ⟨some p.1, some p.2⟩

/-- The cluster key of a `(kind, name)` descriptor applied in namespace `ns`. -/
def keyOf (ns : String) (p : String × String) : ResourceKey :=
  ⟨p.1, ns, p.2⟩

/-- The `results` entry recorded for a resource: `f"{kind}/{name}"`. -/
def entryOf (p : String × String) : String :=
  p.1 ++ "/" ++ p.2

/-- The `unchanged` entry recorded for an already-existing Job. -/
def jobNoteOf (p : String × String) : String :=
  "Job/" ++ p.2 ++ " (jobs cannot be updated)"

/-! ## Credential manager (`lib/storage/object_storage.py`) -/

/-- The exception taxonomy of `object_storage.py` relevant to the claims:
`MissingCredentialsError` and the base `ObjectStorageError`. -/
inductive StorageErr where
  | missingCredentials (msg : String)
  | objectStorage (msg : String)
deriving DecidableEq, Repr

/-- `DEFAULT_ACCESS_TOKEN_DURATION = 43200` (12 hours, in seconds). -/
def DEFAULT_ACCESS_TOKEN_DURATION : Int := 43200

/-- The mutable state of an `ObjectStorage` instance, with the fields set by
`ObjectStorage.__init__`.  The `k8s` handle and the botocore `s3_config` are
opaque external objects, abstracted as numbers; the cached `_s3_client` and
`_api_session` are abstract handles (`none` means not yet constructed). -/
structure ObjStore where
  k8s : Nat
  use_lota : Bool
  region : String
  addressing_style : String
  cw_token : String
  s3_config : Nat
  endpoint_url : String
  s3_client : Option Nat
  api_session : Option Nat
  access_key_id : Option String
  secret_access_key : Option String
  credentials_expiry : Option Int
  credential_duration : Int
deriving DecidableEq, Repr

/-- `ObjectStorage._should_refresh_credentials` (object_storage.py lines
117-128): refresh when no access key or secret key is cached; when an expiry
is tracked, refresh from 5 minutes (300 s) before expiry onwards. -/
def shouldRefreshCredentials (st : ObjStore) (now : Int) : Bool :=
  if strFalsy st.access_key_id || strFalsy st.secret_access_key then true
  else
    match st.credentials_expiry with
    | none => false
    | some e => decide (now ≥ e - 300)

/-- `ObjectStorage._set_credentials` (object_storage.py lines 143-156):
store both keys, set the expiry to now plus the credential duration, remember
the duration, and drop the cached S3 client so it is rebuilt with the new
credentials. -/
def setCredentials (st : ObjStore) (access_key_id secret_access_key : String)
    (duration_seconds : Int) (now : Int) : ObjStore :=
  { st with
      access_key_id := some access_key_id
      secret_access_key := some secret_access_key
      credentials_expiry := some (now + duration_seconds)
      credential_duration := duration_seconds
      s3_client := none }

/-- The response handling shared by both `_fetch_temp_access_keys`
implementations (object_storage.py lines 555-562 and 652-659): extract
`accessKeyId` and `secretKey` from the JSON body and raise
`ObjectStorageError` when either is missing or empty. -/
def parseKeyResponse (accessKeyId secretKey : Option String) :
    Except StorageErr (String × String) :=
  if strFalsy accessKeyId || strFalsy secretKey then
    .error (.objectStorage "Invalid response from access key endpoint, missing keys.")
  else .ok (accessKeyId.getD "", secretKey.getD "")

/-- `ObjectStorage._refresh_credentials` (object_storage.py lines 130-136):
require a CW token, call `_fetch_temp_access_keys(self._credential_duration)`
(whose outcome is the `fetched` argument) and store the keys via
`_set_credentials` with that same duration. -/
def refreshCredentials (st : ObjStore) (now : Int)
    (fetched : Except StorageErr (String × String)) : Except StorageErr ObjStore :=
  if st.cw_token = "" then
    .error (.objectStorage "Cannot refresh credentials without CW token")
  else
    match fetched with
    | .error e => .error e
    | .ok (ak, sk) => .ok (setCredentials st ak sk st.credential_duration now)

/-- The token selection of `ObjectStorage.__init__` (object_storage.py line
86): `cw_token if cw_token else os.environ.get("CW_TOKEN", "")`. -/
def baseInitToken (cw_token env_cw_token : String) : String :=
  if cw_token = "" then env_cw_token else cw_token

/-- `AccessKeyObjectStorage.__init__` (object_storage.py lines 575-589),
reduced to its credential outcome: after the base constructor resolves the
token from the argument or the `CW_TOKEN` environment variable, construction
fails with `MissingCredentialsError` when the resolved token is empty. -/
def initAccessKeyObjectStorage (cw_token env_cw_token : String) :
    Except StorageErr String :=
  let tok := baseInitToken cw_token env_cw_token
  if tok = "" then
    .error (.missingCredentials "Missing cw_token, provide as function input or env var CW_TOKEN.")
  else .ok tok

/-- `PodIdentityObjectStorage.__init__` (object_storage.py lines 474-495),
reduced to its credential outcome: when no token is supplied, read the
well-known pod-identity token file (`token_file` is its content, `none` when
the file is absent); an absent file is `MissingCredentialsError`; the token
read from the file is stripped and passed to the base constructor. -/
def initPodIdentityObjectStorage (cw_token : String) (token_file : Option String)
    (env_cw_token : String) : Except StorageErr String :=
  if cw_token = "" then
    match token_file with
    | none =>
        .error (.missingCredentials "Pod identity token file not found, are you running in a CoreWeave cluster?")
    | some contents => .ok (baseInitToken contents.trim env_cw_token)
  else .ok (baseInitToken cw_token env_cw_token)

/-! ## Warp benchmark orchestrator (`lib/storage/warp.py`) -/

/-- Node inventory as returned by `K8s.get_nodes` and consumed by
`WarpRunner.run_benchmark`: for each of the `gpu` and `cpu` maps, the node
type names with their `node_count` values (the only field the orchestrator
reads, via `.get("node_count", 0)`). -/
structure NodeInventory where
  gpu : List (String × Int)
  cpu : List (String × Int)
deriving DecidableEq, Repr

/-- The node-counting loop of `WarpRunner.run_benchmark`: sum `node_count`
over all node types of one map, starting from 0. -/
def countNodes (nodes : List (String × Int)) : Int :=
  nodes.foldl (fun acc p => acc + p.2) 0

/-- The compute-class / host-count derivation of `WarpRunner.run_benchmark`
(warp.py lines 51-64): when no compute class is requested, use the GPU node
counts if any GPU nodes exist and fall back to the CPU node counts otherwise;
when a compute class is requested explicitly, the counting branch is skipped
and the count stays 0. -/
def benchmarkParams (inv : NodeInventory) (compute_class : Option String) :
    String × Int :=
  match compute_class with
  | some cc => (cc, 0)
  | none =>
    if inv.gpu.isEmpty then ("cpu", countNodes inv.cpu)
    else ("gpu", countNodes inv.gpu)

/-- The mutable state of a `WarpRunner` instance. -/
structure WarpState where
  ns : String
  bucket_name : String
  job_name : Option String
  job_suffix : Option String
deriving DecidableEq, Repr

/-- The values `WarpRunner._generate_warp_yaml` (warp.py lines 120-349)
interpolates into the manifest template: the names of the four rendered
documents, the StatefulSet replica count `host_count - 1`, the warp-client
DNS range `warp-\x7b0...host_count - 2\x7d...` (also used as the end of the
init-container wait loop `seq 0 host_count - 2`), and the run parameters. -/
structure WarpManifest where
  configMapName : String
  warpClient : String
  serviceName : String
  statefulSetName : String
  statefulSetReplicas : Int
  waitSeqEnd : Int
  jobName : String
  computeClass : String
  benchmarkType : String
  duration : String
deriving DecidableEq, Repr

/-- `WarpRunner._generate_warp_yaml`, reduced to the interpolated values of
the rendered template (the rest of the template is constant text). -/
def generateWarpYaml (suffix ns : String) (host_count : Int)
    (compute_class benchmark_type duration : String) : WarpManifest :=
  { configMapName := "warp-config"
    warpClient := "warp-\x7b0..." ++ toString (host_count - 2) ++ "\x7d.warp." ++ ns ++ ".svc.cluster.local"
    serviceName := "warp"
    statefulSetName := "warp"
    statefulSetReplicas := host_count - 1
    waitSeqEnd := host_count - 2
    jobName := "warp-" ++ suffix
    computeClass := compute_class
    benchmarkType := benchmark_type
    duration := duration }

/-- The four documents of the rendered warp manifest, in template order:
ConfigMap, Service, StatefulSet, Job. -/
def warpDocs (m : WarpManifest) : List (Option Doc) :=
  [some ⟨some "ConfigMap", some m.configMapName⟩,
   some ⟨some "Service", some m.serviceName⟩,
   some ⟨some "StatefulSet", some m.statefulSetName⟩,
   some ⟨some "Job", some m.jobName⟩]

/-- Python `s.startswith(pre)`: prefix test, taken on the character lists so
that it evaluates structurally. -/
def pyStartsWith (s pre : String) : Bool :=
  pre.data.isPrefixOf s.data

/-- Python `s.split("/")` on a character list: split at every slash, keeping
empty chunks. -/
def splitSlash : List Char → List (List Char)
  | [] => [[]]
  | ch :: rest =>
    let r := splitSlash rest
    if ch = '/' then [] :: r
    else
      match r with
      | [] => [[ch]]
      | h :: t => (ch :: h) :: t

/-- Python `resource.split("/")` for a string. -/
def pySplitSlash (s : String) : List String :=
  (splitSlash s.data).map fun l => ⟨l⟩

/-- The job-name scan of `WarpRunner.run_benchmark` (warp.py lines 75-78):
the first `created` entry starting with `Job/`, with the text after the first
slash (`resource.split("/")[1]`). -/
def findJobName : List String → Option String
  | [] => none
  | s :: rest =>
    if pyStartsWith s "Job/" then some ((pySplitSlash s).getD 1 "")
    else findJobName rest

/-- `WarpRunner.run_benchmark` (warp.py lines 32-80): derive compute class
and host count from the inventory, render the manifest, apply it, and record
the created Job name (if any) as the running job. -/
def runBenchmark (st : WarpState) (inv : NodeInventory) (c : Cluster)
    (suffix benchmark_type duration : String) (compute_class : Option String) :
    Except (ResourceKey × Cluster) (ApplyResults × Cluster × WarpState) :=
  let p := benchmarkParams inv compute_class
  let m := generateWarpYaml suffix st.ns p.2 p.1 benchmark_type duration
  match applyYaml (warpDocs m) st.ns c with
  | .error e => .error e
  | .ok (res, c') =>
    .ok (res, c',
      { st with
          job_suffix := some suffix
          job_name :=
            match findJobName res.created with
            | some n => some n
            | none => st.job_name })

/-- Python `str.lower()` on the ASCII strings handled here: lowercase each
character. -/
def pyLower (s : String) : String :=
  ⟨s.data.map Char.toLower⟩

/-- A pod as observed by `WarpRunner.get_results`: its name and phase. -/
structure PodInfo where
  name : String
  phase : String
deriving DecidableEq, Repr

/-- The dictionary returned by `WarpRunner.get_results`, with `none` for
absent keys. -/
structure PollResult where
  status : String
  error : Option String
  pod_name : Option String
  message : Option String
  logs : Option String
deriving DecidableEq, Repr

/-- `WarpRunner.get_results` (warp.py lines 82-114): no job recorded is an
error; an empty pod list for the `job-name` selector is `no_pods_found`; a
pod in a phase other than Succeeded/Running/Failed reports the lowercase
phase with a message and no logs; otherwise the container logs are fetched
(`logsResult` is the outcome of that call) and reported with the lowercase
phase, or an error result if the fetch raised. -/
def getResults (job_name : Option String) (pods : List PodInfo)
    (logsResult : Except String String) : PollResult :=
  if strFalsy job_name then ⟨"error", some "No job running", none, none, none⟩
  else
    match pods with
    | [] => ⟨"no_pods_found", some "Job pods not found", none, none, none⟩
    | pod :: _ =>
      if pod.phase ∉ (["Succeeded", "Running", "Failed"] : List String) then
        ⟨pyLower pod.phase, none, some pod.name, some ("Pod is in " ++ pod.phase ++ " state"), none⟩
      else
        match logsResult with
        | .ok text => ⟨pyLower pod.phase, none, none, none, some text⟩
        | .error e => ⟨"error", some ("Failed to fetch logs: " ++ e), some pod.name, none, none⟩

/-! ## Helper lemmas -/

theorem mem_supportedKinds_ne_empty {kind : String} (hk : kind ∈ supportedKinds) :
    kind ≠ "" := by
  simp only [supportedKinds, List.mem_cons, List.not_mem_nil, or_false] at hk
  rcases hk with rfl | rfl | rfl | rfl | rfl <;> decide

theorem createOrUpdateResource_absent (kind name ns : String) (c : Cluster) (r : ApplyResults)
    (hk : kind ∈ supportedKinds)
    (hp : (⟨kind, ns, name⟩ : ResourceKey) ∉ c.present)
    (hf : (⟨kind, ns, name⟩ : ResourceKey) ∉ c.failing) :
    createOrUpdateResource kind name ns c r =
      .ok ({ r with created := r.created ++ [kind ++ "/" ++ name] },
           { c with present := c.present ++ [⟨kind, ns, name⟩] }) := by
  simp only [supportedKinds, List.mem_cons, List.not_mem_nil, or_false] at hk
  rcases hk with rfl | rfl | rfl | rfl | rfl <;>
    simp [createOrUpdateResource, applyResource, readResource, hp, hf]

theorem createOrUpdateResource_present_patchable (kind name ns : String) (c : Cluster)
    (r : ApplyResults)
    (hk : kind ∈ ["ServiceAccount", "ConfigMap", "Service", "StatefulSet"])
    (hp : (⟨kind, ns, name⟩ : ResourceKey) ∈ c.present)
    (hf : (⟨kind, ns, name⟩ : ResourceKey) ∉ c.failing) :
    createOrUpdateResource kind name ns c r =
      .ok ({ r with updated := r.updated ++ [kind ++ "/" ++ name] }, c) := by
  simp only [List.mem_cons, List.not_mem_nil, or_false] at hk
  rcases hk with rfl | rfl | rfl | rfl <;>
    simp [createOrUpdateResource, applyResource, readResource, hp, hf]

theorem createOrUpdateResource_present_job (name ns : String) (c : Cluster) (r : ApplyResults)
    (hp : (⟨"Job", ns, name⟩ : ResourceKey) ∈ c.present)
    (hf : (⟨"Job", ns, name⟩ : ResourceKey) ∉ c.failing) :
    createOrUpdateResource "Job" name ns c r =
      .ok ({ r with unchanged := r.unchanged ++ ["Job/" ++ name ++ " (jobs cannot be updated)"] }, c) := by
  simp [createOrUpdateResource, readResource, hp, hf]

theorem createOrUpdateResource_failing (kind name ns : String) (c : Cluster) (r : ApplyResults)
    (hk : kind ∈ supportedKinds)
    (hf : (⟨kind, ns, name⟩ : ResourceKey) ∈ c.failing) :
    createOrUpdateResource kind name ns c r = .error ⟨kind, ns, name⟩ := by
  simp only [supportedKinds, List.mem_cons, List.not_mem_nil, or_false] at hk
  rcases hk with rfl | rfl | rfl | rfl | rfl <;>
    simp [createOrUpdateResource, applyResource, readResource, hf]

theorem createOrUpdateResource_unsupported (kind name ns : String) (c : Cluster)
    (r : ApplyResults) (hk : kind ∉ supportedKinds) :
    createOrUpdateResource kind name ns c r =
      .ok ({ r with unchanged := r.unchanged ++ [kind ++ "/" ++ name ++ " (unsupported resource type)"] }, c) := by
  simp only [supportedKinds, List.mem_cons, List.not_mem_nil, or_false, not_or] at hk
  obtain ⟨h1, h2, h3, h4, h5⟩ := hk
  simp [createOrUpdateResource, h1, h2, h3, h4, h5]

theorem createOrUpdateResource_ok_failing (kind name ns : String) (c : Cluster)
    (r r' : ApplyResults) (c' : Cluster)
    (h : createOrUpdateResource kind name ns c r = .ok (r', c')) :
    c'.failing = c.failing := by
  unfold createOrUpdateResource applyResource at h
  repeat' split at h
  all_goals simp_all
  all_goals obtain ⟨-, h2⟩ := h
  all_goals subst h2
  all_goals rfl

theorem applyDocs_append (xs ys : List (Option Doc)) (ns : String) (c : Cluster)
    (r : ApplyResults) :
    applyDocs (xs ++ ys) ns c r =
      match applyDocs xs ns c r with
      | .ok (r', c') => applyDocs ys ns c' r'
      | .error e => .error e := by
  induction xs generalizing c r with
  | nil => simp [applyDocs]
  | cons hd tl ih =>
    cases hd with
    | none => simpa [applyDocs] using ih c r
    | some d =>
      by_cases hb : (strFalsy d.kind || strFalsy d.name) = true
      · simpa [applyDocs, hb] using ih c r
      · rcases hcu : createOrUpdateResource (d.kind.getD "") (d.name.getD "") ns c r with k | pr
        · simp [applyDocs, hb, hcu]
        · obtain ⟨r', c'⟩ := pr
          simpa [applyDocs, hb, hcu] using ih c' r'

theorem applyDocs_ok_failing (docs : List (Option Doc)) (ns : String) (c : Cluster)
    (r res : ApplyResults) (c' : Cluster)
    (h : applyDocs docs ns c r = .ok (res, c')) :
    c'.failing = c.failing := by
  induction docs generalizing c r with
  | nil =>
    simp [applyDocs] at h
    rw [← h.2]
  | cons hd tl ih =>
    cases hd with
    | none => exact ih c r (by simpa [applyDocs] using h)
    | some d =>
      by_cases hb : (strFalsy d.kind || strFalsy d.name) = true
      · exact ih c r (by simpa [applyDocs, hb] using h)
      · rcases hcu : createOrUpdateResource (d.kind.getD "") (d.name.getD "") ns c r with k | pr
        · simp [applyDocs, hb, hcu] at h
        · obtain ⟨r2, c2⟩ := pr
          have h2 : applyDocs tl ns c2 r2 = .ok (res, c') := by
            simpa [applyDocs, hb, hcu] using h
          rw [ih c2 r2 h2, createOrUpdateResource_ok_failing _ _ _ _ _ _ _ hcu]

theorem applyDocs_docsOf_absent (ds : List (String × String)) (ns : String) (c : Cluster)
    (r : ApplyResults)
    (hk : ∀ p ∈ ds, p.1 ∈ supportedKinds)
    (hn : ∀ p ∈ ds, p.2 ≠ "")
    (hnd : (ds.map (keyOf ns)).Nodup)
    (hp : ∀ p ∈ ds, keyOf ns p ∉ c.present)
    (hf : ∀ p ∈ ds, keyOf ns p ∉ c.failing) :
    applyDocs (docsOf ds) ns c r =
      .ok ({ r with created := r.created ++ ds.map entryOf },
           { c with present := c.present ++ ds.map (keyOf ns) }) := by
  induction ds generalizing c r with
  | nil => simp [docsOf, applyDocs]
  | cons p tl ih =>
    have hk1 := hk p (List.mem_cons_self p tl)
    have hn1 := hn p (List.mem_cons_self p tl)
    have hkne := mem_supportedKinds_ne_empty hk1
    have hcu := createOrUpdateResource_absent p.1 p.2 ns c r hk1
      (hp p (List.mem_cons_self p tl)) (hf p (List.mem_cons_self p tl))
    have hnd1 : keyOf ns p ∉ tl.map (keyOf ns) := by
      simp only [List.map_cons, List.nodup_cons] at hnd
      exact hnd.1
    have hnd2 : (tl.map (keyOf ns)).Nodup := by
      simp only [List.map_cons, List.nodup_cons] at hnd
      exact hnd.2
    have hstep : applyDocs (docsOf (p :: tl)) ns c r =
        applyDocs (docsOf tl) ns
          { c with present := c.present ++ [keyOf ns p] }
          { r with created := r.created ++ [p.1 ++ "/" ++ p.2] } := by
      simp [docsOf, applyDocs, strFalsy, hkne, hn1, hcu, keyOf]
    rw [hstep, ih { c with present := c.present ++ [keyOf ns p] }
      { r with created := r.created ++ [p.1 ++ "/" ++ p.2] }
      (fun q hq => hk q (List.mem_cons_of_mem p hq))
      (fun q hq => hn q (List.mem_cons_of_mem p hq)) hnd2
      (by
        intro q hq
        simp only [List.mem_append, List.mem_singleton, not_or]
        refine ⟨hp q (List.mem_cons_of_mem p hq), ?_⟩
        intro hEq
        exact hnd1 (hEq ▸ List.mem_map_of_mem (keyOf ns) hq))
      (fun q hq => hf q (List.mem_cons_of_mem p hq))]
    simp [entryOf, keyOf, List.append_assoc]

theorem applyDocs_docsOf_present (ds : List (String × String)) (ns : String) (c : Cluster)
    (r : ApplyResults)
    (hk : ∀ p ∈ ds, p.1 ∈ supportedKinds)
    (hn : ∀ p ∈ ds, p.2 ≠ "")
    (hp : ∀ p ∈ ds, keyOf ns p ∈ c.present)
    (hf : ∀ p ∈ ds, keyOf ns p ∉ c.failing) :
    applyDocs (docsOf ds) ns c r =
      .ok ({ r with
              updated := r.updated ++ ((ds.filter fun p => p.1 ≠ "Job").map entryOf)
              unchanged := r.unchanged ++ ((ds.filter fun p => p.1 = "Job").map jobNoteOf) }, c) := by
  induction ds generalizing r with
  | nil => simp [docsOf, applyDocs]
  | cons p tl ih =>
    have hk1 := hk p (List.mem_cons_self p tl)
    have hn1 := hn p (List.mem_cons_self p tl)
    have hkne := mem_supportedKinds_ne_empty hk1
    by_cases hJ : p.1 = "Job"
    · have hcu := createOrUpdateResource_present_job p.2 ns c r
        (by rw [← hJ]; exact hp p (List.mem_cons_self p tl))
        (by rw [← hJ]; exact hf p (List.mem_cons_self p tl))
      have hstep : applyDocs (docsOf (p :: tl)) ns c r =
          applyDocs (docsOf tl) ns c
            { r with unchanged := r.unchanged ++ ["Job/" ++ p.2 ++ " (jobs cannot be updated)"] } := by
        simp [docsOf, applyDocs, strFalsy, hkne, hn1, hJ, hcu]
      rw [hstep, ih
        { r with unchanged := r.unchanged ++ ["Job/" ++ p.2 ++ " (jobs cannot be updated)"] }
        (fun q hq => hk q (List.mem_cons_of_mem p hq))
        (fun q hq => hn q (List.mem_cons_of_mem p hq))
        (fun q hq => hp q (List.mem_cons_of_mem p hq))
        (fun q hq => hf q (List.mem_cons_of_mem p hq))]
      simp [jobNoteOf, hJ, List.append_assoc]
    · have hk4 : p.1 ∈ ["ServiceAccount", "ConfigMap", "Service", "StatefulSet"] := by
        simp only [supportedKinds, List.mem_cons, List.not_mem_nil, or_false] at hk1
        rcases hk1 with h | h | h | h | h
        · simp [h]
        · simp [h]
        · simp [h]
        · simp [h]
        · exact absurd h hJ
      have hcu := createOrUpdateResource_present_patchable p.1 p.2 ns c r hk4
        (hp p (List.mem_cons_self p tl)) (hf p (List.mem_cons_self p tl))
      have hstep : applyDocs (docsOf (p :: tl)) ns c r =
          applyDocs (docsOf tl) ns c
            { r with updated := r.updated ++ [p.1 ++ "/" ++ p.2] } := by
        simp [docsOf, applyDocs, strFalsy, hkne, hn1, hcu]
      rw [hstep, ih
        { r with updated := r.updated ++ [p.1 ++ "/" ++ p.2] }
        (fun q hq => hk q (List.mem_cons_of_mem p hq))
        (fun q hq => hn q (List.mem_cons_of_mem p hq))
        (fun q hq => hp q (List.mem_cons_of_mem p hq))
        (fun q hq => hf q (List.mem_cons_of_mem p hq))]
      simp [entryOf, hJ, List.append_assoc]

theorem findJobName_isSome (l : List String) :
    (findJobName l).isSome = l.any fun s => pyStartsWith s "Job/" := by
  induction l with
  | nil => rfl
  | cons hd tl ih =>
    by_cases hs : pyStartsWith hd "Job/" = true
    · simp [findJobName, hs]
    · simp [findJobName, hs, ih]

theorem countNodes_eq_sum (nodes : List (String × Int)) :
    countNodes nodes = (nodes.map Prod.snd).sum := by
  have aux : ∀ (l : List (String × Int)) (a : Int),
      l.foldl (fun acc p => acc + p.2) a = a + (l.map Prod.snd).sum := by
    intro l
    induction l with
    | nil => intro a; simp
    | cons hd tl ih => intro a; simp [List.foldl_cons, ih, add_assoc]
  simpa [countNodes] using aux nodes 0

theorem warp_prefix_ne_empty (s : String) : ("warp-" ++ s) ≠ "" := by
  intro h
  have h2 := congrArg String.length h
  simp [String.length_append] at h2
  exact absurd h2.1 (by decide)

/-! ## Claim theorems -/

/-- C1: for every non-empty resource-descriptor set of supported kinds with
distinct keys, applied against a cluster where none of the resources exist
and none of their reads fail: the first apply records every resource under
`created` (non-empty, with `updated` and `unchanged` empty), and a second
apply of the same set records the same names under `updated`, except Jobs,
which are recorded under `unchanged` with the explanatory note instead of
being patched. -/
theorem apply_twice_created_then_updated
    (ds : List (String × String)) (ns : String) (c : Cluster)
    (hne : ds ≠ [])
    (hk : ∀ p ∈ ds, p.1 ∈ supportedKinds)
    (hn : ∀ p ∈ ds, p.2 ≠ "")
    (hnd : (ds.map (keyOf ns)).Nodup)
    (hp : ∀ p ∈ ds, keyOf ns p ∉ c.present)
    (hf : ∀ p ∈ ds, keyOf ns p ∉ c.failing) :
    ∃ c₁, applyYaml (docsOf ds) ns c = .ok (⟨ds.map entryOf, [], []⟩, c₁) ∧
      ds.map entryOf ≠ [] ∧
      applyYaml (docsOf ds) ns c₁ =
        .ok (⟨[], (ds.filter fun p => p.1 ≠ "Job").map entryOf,
              (ds.filter fun p => p.1 = "Job").map jobNoteOf⟩, c₁) := by
  refine ⟨{ c with present := c.present ++ ds.map (keyOf ns) }, ?_, ?_, ?_⟩
  · have h1 := applyDocs_docsOf_absent ds ns c ⟨[], [], []⟩ hk hn hnd hp hf
    simpa [applyYaml] using h1
  · simpa using hne
  · have h2 := applyDocs_docsOf_present ds ns
      { c with present := c.present ++ ds.map (keyOf ns) } ⟨[], [], []⟩ hk hn
      (fun p hpm => by
        simp only [List.mem_append]
        exact Or.inr (List.mem_map_of_mem (keyOf ns) hpm))
      (fun p hpm => hf p hpm)
    simpa [applyYaml] using h2

/-- Witness for C1: a ConfigMap and a Job applied twice against an empty
cluster. -/
theorem apply_twice_created_then_updated_witness :
    ∃ c₁, applyYaml (docsOf [("ConfigMap", "warp-config"), ("Job", "warp-x")]) "tenant" ⟨[], []⟩ =
        .ok (⟨["ConfigMap/warp-config", "Job/warp-x"], [], []⟩, c₁) ∧
      (["ConfigMap/warp-config", "Job/warp-x"] : List String) ≠ [] ∧
      applyYaml (docsOf [("ConfigMap", "warp-config"), ("Job", "warp-x")]) "tenant" c₁ =
        .ok (⟨[], ["ConfigMap/warp-config"], ["Job/warp-x (jobs cannot be updated)"]⟩, c₁) := by
  have h := apply_twice_created_then_updated
    [("ConfigMap", "warp-config"), ("Job", "warp-x")] "tenant" ⟨[], []⟩
    (by decide) (by decide) (by decide) (by decide) (by decide) (by decide)
  simpa [entryOf, jobNoteOf] using h

/-- C6: if, during an apply over an ordered document sequence, the read of a
supported-kind descriptor fails with a non-404 error, the apply raises a
fatal error naming that resource; no later document is processed (the outcome
does not depend on `post`), and the cluster state carried by the error is
exactly the state reached by applying the preceding documents alone - the
effects of the earlier descriptors are not rolled back. -/
theorem apply_stops_at_failing_read
    (pre post : List (Option Doc)) (bad : String × String) (ns : String) (c : Cluster)
    (rp : ApplyResults) (cp : Cluster)
    (hpre : applyYaml pre ns c = .ok (rp, cp))
    (hk : bad.1 ∈ supportedKinds) (hn : bad.2 ≠ "")
    (hf : keyOf ns bad ∈ c.failing) :
    applyYaml (pre ++ some ⟨some bad.1, some bad.2⟩ :: post) ns c =
      .error (keyOf ns bad, cp) := by
  have hfail : cp.failing = c.failing :=
    applyDocs_ok_failing pre ns c ⟨[], [], []⟩ rp cp hpre
  have hkne := mem_supportedKinds_ne_empty hk
  have hcu := createOrUpdateResource_failing bad.1 bad.2 ns cp rp hk
    (by rw [hfail]; exact hf)
  unfold applyYaml at hpre ⊢
  rw [applyDocs_append, hpre]
  simp [applyDocs, strFalsy, hkne, hn, hcu, keyOf]

/-- Witness for C6: a ConfigMap applies first, then a Service whose read
fails aborts the apply before a trailing Job document is processed. -/
theorem apply_stops_at_failing_read_witness :
    applyYaml [some ⟨some "ConfigMap", some "a"⟩] "t" ⟨[], [⟨"Service", "t", "b"⟩]⟩ =
      .ok (⟨["ConfigMap/a"], [], []⟩, ⟨[⟨"ConfigMap", "t", "a"⟩], [⟨"Service", "t", "b"⟩]⟩) ∧
    applyYaml ([some ⟨some "ConfigMap", some "a"⟩] ++
        some ⟨some "Service", some "b"⟩ :: [some ⟨some "Job", some "j"⟩]) "t"
        ⟨[], [⟨"Service", "t", "b"⟩]⟩ =
      .error (⟨"Service", "t", "b"⟩, ⟨[⟨"ConfigMap", "t", "a"⟩], [⟨"Service", "t", "b"⟩]⟩) := by
  refine ⟨rfl, ?_⟩
  exact apply_stops_at_failing_read [some ⟨some "ConfigMap", some "a"⟩]
    [some ⟨some "Job", some "j"⟩] ("Service", "b") "t" ⟨[], [⟨"Service", "t", "b"⟩]⟩
    ⟨["ConfigMap/a"], [], []⟩ ⟨[⟨"ConfigMap", "t", "a"⟩], [⟨"Service", "t", "b"⟩]⟩
    rfl (by decide) (by decide) (by decide)

/-- C7: a descriptor whose kind is outside the supported set never raises:
it is recorded under `unchanged` with the unsupported-resource-type
annotation, the cluster is untouched, and the document loop continues with
the remaining descriptors. -/
theorem unsupported_kind_recorded_unchanged
    (kind name ns : String) (c : Cluster) (r : ApplyResults) (rest : List (Option Doc))
    (hk : kind ∉ supportedKinds) (hkne : kind ≠ "") (hnne : name ≠ "") :
    createOrUpdateResource kind name ns c r =
      .ok ({ r with unchanged := r.unchanged ++ [kind ++ "/" ++ name ++ " (unsupported resource type)"] }, c) ∧
    applyDocs (some ⟨some kind, some name⟩ :: rest) ns c r =
      applyDocs rest ns c
        { r with unchanged := r.unchanged ++ [kind ++ "/" ++ name ++ " (unsupported resource type)"] } := by
  have hcu := createOrUpdateResource_unsupported kind name ns c r hk
  refine ⟨hcu, ?_⟩
  simp [applyDocs, strFalsy, hkne, hnne, hcu]

/-- Witness for C7: a Deployment descriptor is recorded under `unchanged`
and the loop continues with the next document. -/
theorem unsupported_kind_recorded_unchanged_witness :
    createOrUpdateResource "Deployment" "x" "t" ⟨[], []⟩ ⟨[], [], []⟩ =
      .ok (⟨[], [], ["Deployment/x (unsupported resource type)"]⟩, ⟨[], []⟩) ∧
    applyDocs [some ⟨some "Deployment", some "x"⟩, some ⟨some "Role", some "y"⟩] "t"
        ⟨[], []⟩ ⟨[], [], []⟩ =
      applyDocs [some ⟨some "Role", some "y"⟩] "t" ⟨[], []⟩
        ⟨[], [], ["Deployment/x (unsupported resource type)"]⟩ := by
  have h := unsupported_kind_recorded_unchanged "Deployment" "x" "t" ⟨[], []⟩ ⟨[], [], []⟩
    [some ⟨some "Role", some "y"⟩] (by decide) (by decide) (by decide)
  simpa using h

/-- C2: the staleness check returns true exactly when no access key or no
secret key is cached, or when a tracked expiry satisfies now at or past
expiry minus 5 minutes; and immediately after a successful refresh with the
default 12-hour duration (which sets the expiry to the refresh time plus the
duration), the staleness check at the refresh time returns false. -/
theorem staleness_check_characterization :
    (∀ (st : ObjStore) (now : Int),
      shouldRefreshCredentials st now = true ↔
        (strFalsy st.access_key_id = true ∨ strFalsy st.secret_access_key = true ∨
         ∃ e, st.credentials_expiry = some e ∧ now ≥ e - 300)) ∧
    (∀ (st st' : ObjStore) (t : Int) (a b : Option String),
      st.credential_duration = 43200 →
      refreshCredentials st t (parseKeyResponse a b) = .ok st' →
      st'.credentials_expiry = some (t + 43200) ∧
      shouldRefreshCredentials st' t = false) := by
  constructor
  · intro st now
    unfold shouldRefreshCredentials
    by_cases hA : strFalsy st.access_key_id = true
    · simp [hA]
    · by_cases hB : strFalsy st.secret_access_key = true
      · simp [hA, hB]
      · cases hE : st.credentials_expiry with
        | none => simp [hA, hB, hE]
        | some e => simp [hA, hB, hE]
  · intro st st' t a b hdur h
    have hcase : ¬ (strFalsy a || strFalsy b) = true ∧ st.cw_token ≠ "" ∧
        st' = setCredentials st (a.getD "") (b.getD "") st.credential_duration t := by
      by_cases htok : st.cw_token = ""
      · simp [refreshCredentials, htok] at h
      · by_cases hresp : (strFalsy a || strFalsy b) = true
        · simp [refreshCredentials, parseKeyResponse, htok, hresp] at h
        · refine ⟨hresp, htok, ?_⟩
          simp [refreshCredentials, parseKeyResponse, htok, hresp] at h
          exact h.symm
    obtain ⟨hresp, htok, rfl⟩ := hcase
    simp only [Bool.or_eq_true, not_or, Bool.not_eq_true] at hresp
    obtain ⟨ha, hb⟩ := hresp
    have ha' : strFalsy (some (a.getD "")) = false := by
      cases a with
      | none => simp [strFalsy] at ha
      | some s => simpa [strFalsy] using ha
    have hb' : strFalsy (some (b.getD "")) = false := by
      cases b with
      | none => simp [strFalsy] at hb
      | some s => simpa [strFalsy] using hb
    constructor
    · simp [setCredentials, hdur]
    · unfold shouldRefreshCredentials
      simp [setCredentials, ha', hb', hdur, decide_eq_false_iff_not]

/-- Witness for C2: refreshing a manager holding no credentials, at time 0
with the default duration, yields an expiry of 43200 and a non-stale check at
time 0. -/
theorem staleness_check_characterization_witness :
    refreshCredentials ⟨0, true, "r", "virtual", "tok", 0, "e", some 7, some 9, none, none, none, 43200⟩
        0 (parseKeyResponse (some "AK") (some "SK")) =
      .ok ⟨0, true, "r", "virtual", "tok", 0, "e", none, some 9, some "AK", some "SK", some 43200, 43200⟩ ∧
    (⟨0, true, "r", "virtual", "tok", 0, "e", none, some 9, some "AK", some "SK", some 43200, 43200⟩ : ObjStore).credentials_expiry = some 43200 ∧
    shouldRefreshCredentials ⟨0, true, "r", "virtual", "tok", 0, "e", none, some 9, some "AK", some "SK", some 43200, 43200⟩ 0 = false := by
  have h := staleness_check_characterization.2
    ⟨0, true, "r", "virtual", "tok", 0, "e", some 7, some 9, none, none, none, 43200⟩
    ⟨0, true, "r", "virtual", "tok", 0, "e", none, some 9, some "AK", some "SK", some 43200, 43200⟩
    0 (some "AK") (some "SK") rfl rfl
  exact ⟨rfl, h.1, h.2⟩

/-- C8: constructing the access-key client with no token supplied and no
token in the environment fails with a missing-credentials error; the
pod-identity client fails with a missing-credentials error when the
well-known token file is absent and no token was supplied. -/
theorem missing_token_fails_construction :
    initAccessKeyObjectStorage "" "" =
      .error (.missingCredentials "Missing cw_token, provide as function input or env var CW_TOKEN.") ∧
    ∀ env_cw_token, initPodIdentityObjectStorage "" none env_cw_token =
      .error (.missingCredentials "Pod identity token file not found, are you running in a CoreWeave cluster?") :=
  ⟨rfl, fun _ => rfl⟩

/-- C9: a successful refresh replaces all credential fields together as one
`setCredentials` step, clears the cached S3 client, and leaves every other
field of the storage-client state (including the cached API session)
unchanged. -/
theorem refresh_replaces_credentials_wholesale
    (st : ObjStore) (now : Int) (fetched : Except StorageErr (String × String)) (st' : ObjStore)
    (h : refreshCredentials st now fetched = .ok st') :
    ∃ ak sk, fetched = .ok (ak, sk) ∧
      st' = setCredentials st ak sk st.credential_duration now ∧
      st'.access_key_id = some ak ∧
      st'.secret_access_key = some sk ∧
      st'.credentials_expiry = some (now + st.credential_duration) ∧
      st'.credential_duration = st.credential_duration ∧
      st'.s3_client = none ∧
      st'.k8s = st.k8s ∧ st'.use_lota = st.use_lota ∧ st'.region = st.region ∧
      st'.addressing_style = st.addressing_style ∧ st'.cw_token = st.cw_token ∧
      st'.s3_config = st.s3_config ∧ st'.endpoint_url = st.endpoint_url ∧
      st'.api_session = st.api_session := by
  by_cases htok : st.cw_token = ""
  · simp [refreshCredentials, htok] at h
  · rcases fetched with e | p
    · simp [refreshCredentials, htok] at h
    · obtain ⟨ak, sk⟩ := p
      refine ⟨ak, sk, rfl, ?_⟩
      simp only [refreshCredentials, if_neg htok] at h
      cases h
      simp [setCredentials]

/-- Witness for C9: a concrete refresh clears the cached S3 client and keeps
the cached API session and token. -/
theorem refresh_replaces_credentials_wholesale_witness :
    refreshCredentials ⟨1, false, "us", "path", "tk", 2, "ep", some 5, some 6, some "old", some "olds", some 99, 7200⟩
        10 (.ok ("nak", "nsk")) =
      .ok ⟨1, false, "us", "path", "tk", 2, "ep", none, some 6, some "nak", some "nsk", some 7210, 7200⟩ ∧
    (⟨1, false, "us", "path", "tk", 2, "ep", none, some 6, some "nak", some "nsk", some 7210, 7200⟩ : ObjStore).s3_client = none ∧
    (⟨1, false, "us", "path", "tk", 2, "ep", none, some 6, some "nak", some "nsk", some 7210, 7200⟩ : ObjStore).api_session = some 6 ∧
    (⟨1, false, "us", "path", "tk", 2, "ep", none, some 6, some "nak", some "nsk", some 7210, 7200⟩ : ObjStore).cw_token = "tk" := by
  have h := refresh_replaces_credentials_wholesale
    ⟨1, false, "us", "path", "tk", 2, "ep", some 5, some 6, some "old", some "olds", some 99, 7200⟩
    10 (.ok ("nak", "nsk"))
    ⟨1, false, "us", "path", "tk", 2, "ep", none, some 6, some "nak", some "nsk", some 7210, 7200⟩ rfl
  obtain ⟨ak, sk, -, -, -, -, -, -, hs3, -, -, -, -, htok2, -, -, hap⟩ := h
  exact ⟨rfl, hs3, hap, htok2⟩

/-- C3: for a fresh runner, the orchestrator records a running job (job_name
becomes set) exactly when a `Job/` entry appears in the apply result's
`created` list; and re-submitting the identical run while the previously
created resources (in particular the Job of the same name) still exist is a
no-op - nothing is created, the Job is reported unchanged, the cluster is
untouched and job_name keeps its previous value. -/
theorem benchmark_started_iff_job_created :
    (∀ (st : WarpState) (inv : NodeInventory) (c : Cluster) (suffix bt dur : String)
        (cc : Option String) (res : ApplyResults) (c' : Cluster) (st' : WarpState),
      st.job_name = none →
      runBenchmark st inv c suffix bt dur cc = .ok (res, c', st') →
      st'.job_name.isSome = res.created.any fun s => pyStartsWith s "Job/") ∧
    (∀ (st : WarpState) (inv : NodeInventory) (c : Cluster) (suffix bt dur : String)
        (cc : Option String),
      (⟨"ConfigMap", st.ns, "warp-config"⟩ : ResourceKey) ∈ c.present →
      (⟨"Service", st.ns, "warp"⟩ : ResourceKey) ∈ c.present →
      (⟨"StatefulSet", st.ns, "warp"⟩ : ResourceKey) ∈ c.present →
      (⟨"Job", st.ns, "warp-" ++ suffix⟩ : ResourceKey) ∈ c.present →
      (⟨"ConfigMap", st.ns, "warp-config"⟩ : ResourceKey) ∉ c.failing →
      (⟨"Service", st.ns, "warp"⟩ : ResourceKey) ∉ c.failing →
      (⟨"StatefulSet", st.ns, "warp"⟩ : ResourceKey) ∉ c.failing →
      (⟨"Job", st.ns, "warp-" ++ suffix⟩ : ResourceKey) ∉ c.failing →
      runBenchmark st inv c suffix bt dur cc =
        .ok (⟨[], ["ConfigMap/warp-config", "Service/warp", "StatefulSet/warp"],
              ["Job/warp-" ++ suffix ++ " (jobs cannot be updated)"]⟩, c,
             { st with job_suffix := some suffix })) := by
  constructor
  · intro st inv c suffix bt dur cc res c' st' hjn h
    simp only [runBenchmark] at h
    cases happ : applyYaml
        (warpDocs (generateWarpYaml suffix st.ns (benchmarkParams inv cc).2
          (benchmarkParams inv cc).1 bt dur)) st.ns c with
    | error e => rw [happ] at h; exact absurd h (by simp)
    | ok pr =>
      obtain ⟨res0, c0⟩ := pr
      rw [happ] at h
      simp only [Except.ok.injEq, Prod.mk.injEq] at h
      obtain ⟨rfl, rfl, rfl⟩ := h
      rw [← findJobName_isSome]
      cases hfj : findJobName res0.created with
      | some n => simp [hjn, hfj]
      | none => simp [hjn, hfj]
  · intro st inv c suffix bt dur cc h1 h2 h3 h4 hf1 hf2 hf3 hf4
    have hds := applyDocs_docsOf_present
      [("ConfigMap", "warp-config"), ("Service", "warp"),
       ("StatefulSet", "warp"), ("Job", "warp-" ++ suffix)]
      st.ns c ⟨[], [], []⟩
      (by
        intro p hpm
        simp only [List.mem_cons, List.not_mem_nil, or_false] at hpm
        rcases hpm with rfl | rfl | rfl | rfl <;> simp [supportedKinds])
      (by
        intro p hpm
        simp only [List.mem_cons, List.not_mem_nil, or_false] at hpm
        rcases hpm with rfl | rfl | rfl | rfl
        · decide
        · decide
        · decide
        · exact warp_prefix_ne_empty suffix)
      (by
        intro p hpm
        simp only [List.mem_cons, List.not_mem_nil, or_false] at hpm
        rcases hpm with rfl | rfl | rfl | rfl
        · exact h1
        · exact h2
        · exact h3
        · exact h4)
      (by
        intro p hpm
        simp only [List.mem_cons, List.not_mem_nil, or_false] at hpm
        rcases hpm with rfl | rfl | rfl | rfl
        · exact hf1
        · exact hf2
        · exact hf3
        · exact hf4)
    have hds2 : applyYaml
        (warpDocs (generateWarpYaml suffix st.ns (benchmarkParams inv cc).2
          (benchmarkParams inv cc).1 bt dur)) st.ns c =
        .ok ({ ApplyResults.mk [] [] [] with
                updated := [] ++
                  (([("ConfigMap", "warp-config"), ("Service", "warp"),
                     ("StatefulSet", "warp"), ("Job", "warp-" ++ suffix)].filter
                    fun p => p.1 ≠ "Job").map entryOf)
                unchanged := [] ++
                  (([("ConfigMap", "warp-config"), ("Service", "warp"),
                     ("StatefulSet", "warp"), ("Job", "warp-" ++ suffix)].filter
                    fun p => p.1 = "Job").map jobNoteOf) }, c) := hds
    simp only [runBenchmark]
    rw [hds2]
    simp [entryOf, jobNoteOf, findJobName, ← String.append_assoc]

/-- Witness for C3: a first submission against an empty cluster creates the
Job and sets job_name; re-submitting with the same suffix leaves everything
unchanged. -/
theorem benchmark_started_iff_job_created_witness :
    runBenchmark ⟨"t", "b", none, none⟩ ⟨[], []⟩ ⟨[], []⟩ "s" "get" "10m" none =
      .ok (⟨["ConfigMap/warp-config", "Service/warp", "StatefulSet/warp", "Job/warp-s"], [], []⟩,
           ⟨[⟨"ConfigMap", "t", "warp-config"⟩, ⟨"Service", "t", "warp"⟩,
             ⟨"StatefulSet", "t", "warp"⟩, ⟨"Job", "t", "warp-s"⟩], []⟩,
           ⟨"t", "b", some "warp-s", some "s"⟩) ∧
    (some "warp-s").isSome =
      (["ConfigMap/warp-config", "Service/warp", "StatefulSet/warp", "Job/warp-s"].any
        fun s => pyStartsWith s "Job/") ∧
    runBenchmark ⟨"t", "b", some "warp-s", some "s"⟩ ⟨[], []⟩
        ⟨[⟨"ConfigMap", "t", "warp-config"⟩, ⟨"Service", "t", "warp"⟩,
          ⟨"StatefulSet", "t", "warp"⟩, ⟨"Job", "t", "warp-s"⟩], []⟩ "s" "get" "10m" none =
      .ok (⟨[], ["ConfigMap/warp-config", "Service/warp", "StatefulSet/warp"],
            ["Job/warp-s (jobs cannot be updated)"]⟩,
           ⟨[⟨"ConfigMap", "t", "warp-config"⟩, ⟨"Service", "t", "warp"⟩,
             ⟨"StatefulSet", "t", "warp"⟩, ⟨"Job", "t", "warp-s"⟩], []⟩,
           ⟨"t", "b", some "warp-s", some "s"⟩) := by
  refine ⟨rfl, ?_, ?_⟩
  · exact benchmark_started_iff_job_created.1 ⟨"t", "b", none, none⟩ ⟨[], []⟩ ⟨[], []⟩
      "s" "get" "10m" none _ _ _ rfl rfl
  · exact benchmark_started_iff_job_created.2 ⟨"t", "b", some "warp-s", some "s"⟩ ⟨[], []⟩
      ⟨[⟨"ConfigMap", "t", "warp-config"⟩, ⟨"Service", "t", "warp"⟩,
        ⟨"StatefulSet", "t", "warp"⟩, ⟨"Job", "t", "warp-s"⟩], []⟩ "s" "get" "10m" none
      (by decide) (by decide) (by decide) (by decide)
      (by decide) (by decide) (by decide) (by decide)

/-- C4: with no compute class requested, the derived host count is the sum
of the GPU node counts when any GPU node exists (CPU nodes are ignored), and
the sum of the CPU node counts when the GPU map is empty. -/
theorem host_count_from_inventory (inv : NodeInventory) :
    (inv.gpu ≠ [] → benchmarkParams inv none = ("gpu", (inv.gpu.map Prod.snd).sum)) ∧
    (inv.gpu = [] → benchmarkParams inv none = ("cpu", (inv.cpu.map Prod.snd).sum)) := by
  constructor
  · intro h
    simp [benchmarkParams, h, countNodes_eq_sum]
  · intro h
    simp [benchmarkParams, h, countNodes_eq_sum]

/-- Witness for C4: inventory with one GPU type of 4 nodes yields host count
4 regardless of CPU nodes; inventory with no GPU nodes and 3 CPU nodes
yields host count 3. -/
theorem host_count_from_inventory_witness :
    (NodeInventory.mk [("typeA", 4)] [("typeB", 2)]).gpu ≠ [] ∧
    benchmarkParams ⟨[("typeA", 4)], [("typeB", 2)]⟩ none = ("gpu", 4) ∧
    (NodeInventory.mk [] [("typeA", 3)]).gpu = [] ∧
    benchmarkParams ⟨[], [("typeA", 3)]⟩ none = ("cpu", 3) := by
  refine ⟨by decide, ?_, rfl, ?_⟩
  · have h := (host_count_from_inventory ⟨[("typeA", 4)], [("typeB", 2)]⟩).1 (by decide)
    simpa using h
  · have h := (host_count_from_inventory ⟨[], [("typeA", 3)]⟩).2 rfl
    simpa using h

/-- C5: polling a started run reports `no_pods_found` when no pod matches
the job-name selector; a pod in a phase outside Succeeded/Running/Failed is
reported as the lowercase phase with no logs; a pod in one of those phases is
reported as the lowercase phase together with the fetched log text. -/
theorem poll_results_by_phase
    (job_name : Option String) (pods : List PodInfo) (logsResult : Except String String)
    (hjn : strFalsy job_name = false) :
    (pods = [] → getResults job_name pods logsResult =
      ⟨"no_pods_found", some "Job pods not found", none, none, none⟩) ∧
    (∀ pod rest, pods = pod :: rest →
      pod.phase ∉ (["Succeeded", "Running", "Failed"] : List String) →
      getResults job_name pods logsResult =
        ⟨pyLower pod.phase, none, some pod.name,
         some ("Pod is in " ++ pod.phase ++ " state"), none⟩) ∧
    (∀ pod rest text, pods = pod :: rest →
      pod.phase ∈ (["Succeeded", "Running", "Failed"] : List String) →
      logsResult = .ok text →
      getResults job_name pods logsResult =
        ⟨pyLower pod.phase, none, none, none, some text⟩) := by
  refine ⟨?_, ?_, ?_⟩
  · rintro rfl
    simp [getResults, hjn]
  · rintro pod rest rfl hph
    simp [getResults, hjn, hph]
  · rintro pod rest text rfl hph rfl
    simp [getResults, hjn, hph]

/-- Witness for C5: polling with no pods, with a Pending pod, and with a
Running pod whose logs fetch succeeds. -/
theorem poll_results_by_phase_witness :
    strFalsy (some "warp-abc") = false ∧
    getResults (some "warp-abc") [] (.ok "") =
      ⟨"no_pods_found", some "Job pods not found", none, none, none⟩ ∧
    getResults (some "warp-abc") [⟨"pod1", "Pending"⟩] (.ok "") =
      ⟨"pending", none, some "pod1", some "Pod is in Pending state", none⟩ ∧
    getResults (some "warp-abc") [⟨"pod1", "Running"⟩] (.ok "log text") =
      ⟨"running", none, none, none, some "log text"⟩ := by
  have h1 := (poll_results_by_phase (some "warp-abc") [] (.ok "") (by decide)).1 rfl
  have h2 := (poll_results_by_phase (some "warp-abc") [⟨"pod1", "Pending"⟩] (.ok "")
    (by decide)).2.1 ⟨"pod1", "Pending"⟩ [] rfl (by decide)
  have h3 := (poll_results_by_phase (some "warp-abc") [⟨"pod1", "Running"⟩] (.ok "log text")
    (by decide)).2.2 ⟨"pod1", "Running"⟩ [] "log text" rfl (by decide) rfl
  exact ⟨by decide, h1, h2, h3⟩

/-- C10: when a compute class is passed explicitly, the node-inventory
counting branch is skipped and the worker count stays 0, so the rendered
manifest requests a StatefulSet with replicas = -1, an init-container wait
sequence ending at -2, and a warp-client DNS range of 0...-2, regardless of
the cluster's node inventory. -/
theorem explicit_compute_class_renders_degenerate_manifest
    (inv : NodeInventory) (cc suffix ns bt dur : String) :
    benchmarkParams inv (some cc) = (cc, 0) ∧
    (generateWarpYaml suffix ns (benchmarkParams inv (some cc)).2
        (benchmarkParams inv (some cc)).1 bt dur).statefulSetReplicas = -1 ∧
    (generateWarpYaml suffix ns (benchmarkParams inv (some cc)).2
        (benchmarkParams inv (some cc)).1 bt dur).waitSeqEnd = -2 ∧
    (generateWarpYaml suffix "tenant-slurm" (benchmarkParams inv (some cc)).2
        (benchmarkParams inv (some cc)).1 bt dur).warpClient =
      "warp-\x7b0...-2\x7d.warp.tenant-slurm.svc.cluster.local" :=
  ⟨rfl, rfl, rfl, rfl⟩

/-- Witness for C8: both constructors at concrete inputs. -/
theorem missing_token_fails_construction_witness :
    initAccessKeyObjectStorage "" "" =
      .error (.missingCredentials "Missing cw_token, provide as function input or env var CW_TOKEN.") ∧
    initPodIdentityObjectStorage "" none "envtok" =
      .error (.missingCredentials "Pod identity token file not found, are you running in a CoreWeave cluster?") :=
  ⟨missing_token_fails_construction.1, missing_token_fails_construction.2 "envtok"⟩

/-- Witness for C10: a concrete inventory with GPU and CPU nodes still
renders replicas = -1 and the 0...-2 range when a compute class is given. -/
theorem explicit_compute_class_renders_degenerate_manifest_witness :
    benchmarkParams ⟨[("a", 5)], [("b", 7)]⟩ (some "gpu") = ("gpu", 0) ∧
    (generateWarpYaml "s" "ns" (benchmarkParams ⟨[("a", 5)], [("b", 7)]⟩ (some "gpu")).2
        (benchmarkParams ⟨[("a", 5)], [("b", 7)]⟩ (some "gpu")).1 "get" "10m").statefulSetReplicas = -1 ∧
    (generateWarpYaml "s" "ns" (benchmarkParams ⟨[("a", 5)], [("b", 7)]⟩ (some "gpu")).2
        (benchmarkParams ⟨[("a", 5)], [("b", 7)]⟩ (some "gpu")).1 "get" "10m").waitSeqEnd = -2 ∧
    (generateWarpYaml "s" "tenant-slurm" (benchmarkParams ⟨[("a", 5)], [("b", 7)]⟩ (some "gpu")).2
        (benchmarkParams ⟨[("a", 5)], [("b", 7)]⟩ (some "gpu")).1 "get" "10m").warpClient =
      "warp-\x7b0...-2\x7d.warp.tenant-slurm.svc.cluster.local" :=
  explicit_compute_class_renders_degenerate_manifest ⟨[("a", 5)], [("b", 7)]⟩ "gpu" "s" "ns" "get" "10m"
